import Mathlib

/-!
Verification development for the `llm-poe` plugin (`llm_poe.py`): a shallow
embedding of its catalog cache, model registration, payload construction and
response decoding, together with theorems checking the natural-language
specification against the embedded code.

Conventions of the embedding:
* Python JSON values are modelled by the inductive `LlmPoe.Json`; numbers are
  rationals (no floating point arithmetic is ever performed by the code on
  decoded values, they are only carried through).
* Python `dict.get(k)` on a JSON object is `Json.getField`; on a non-object it
  returns `none` (the Python code would raise there; all claims under
  consideration quantify over well-formed wire shapes, where the object case
  applies).
* Optional fields of a Python dict payload are `Option` fields of a structure:
  `some v` means the key is present with value `v`, `none` means absent.
* `time.time()` is an `Int`-valued instant passed in explicitly; the global
  mutable cache (`_model_cache`, `_cache_timestamp`) is an explicit
  `CacheState` threaded through `fetchAvailableModels`.
* The network is an explicit oracle argument: `Except Unit (List CatalogEntry)`
  where `.ok` carries the `data` array of a successfully fetched, 2xx,
  JSON-parsed body and `.error` covers transport errors, non-2xx statuses and
  body decode failures (everything the `except` clause at
  `llm_poe.py:84` catches).
-/

namespace LlmPoe

/- ### Character-level string operations

Python strings are sequences of characters; the embedding uses the following
character-list implementations of the string operations the source relies on
(`str.lower`, `str.replace` with single-character patterns, `str.startswith`,
slicing `s[n:]`), because they mirror Python semantics directly. -/

/-- Python `str.lower()` (the model names in play are ASCII). -/
def pyLower (s : String) : String := ⟨s.data.map Char.toLower⟩

/-- Python `str.replace(a, b)` for single-character `a`, `b`: a character map. -/
def pyMapChars (f : Char → Char) (s : String) : String := ⟨s.data.map f⟩

/-- Whether the first list is an initial segment of the second. -/
def isPre : List Char → List Char → Bool
  | [], _ => true
  | _ :: _, [] => false
  | p :: ps, c :: cs => p == c && isPre ps cs

/-- Python `s.startswith(p)`. -/
def pyStarts (s p : String) : Bool := isPre p.data s.data

/-- Python slicing `s[n:]`. -/
def pyDropChars (n : Nat) (s : String) : String := ⟨s.data.drop n⟩

/-- JSON values as decoded by `json.loads`. -/
inductive Json where
  | null : Json
  | bool (b : Bool) : Json
  | num (q : ℚ) : Json
  | str (s : String) : Json
  | arr (elems : List Json) : Json
  | obj (fields : List (String × Json)) : Json

/-- Field lookup on a JSON object, `none` on non-objects or missing keys.
Models Python `d[k]` / `d.get(k)` on decoded dicts. -/
def Json.getField : Json → String → Option Json
  | .obj fields, k => fields.lookup k
  | _, _ => none

/- ### Catalog fetch and cache (`llm_poe.py:43`-`llm_poe.py:87`) -/

/-- One entry of the model catalog: a JSON object of which the code only ever
reads the string field `"id"` (`model_data.get("id", "")`); `none` models an
absent `id` key. -/
structure CatalogEntry where
  id : Option String
deriving DecidableEq, Repr

/-- The static fallback list `FALLBACK_MODELS` (`llm_poe.py:13`-`llm_poe.py:19`),
projected to the only field the code reads. -/
def FALLBACK_MODELS : List CatalogEntry :=
  [⟨some "GPT-4o"⟩, ⟨some "Claude-Sonnet-4"⟩, ⟨some "Gemini-2.5-Pro"⟩,
   ⟨some "Llama-3.1-405B"⟩, ⟨some "Grok-4"⟩]

/-- The process-wide cache globals `_model_cache` and `_cache_timestamp`
(`llm_poe.py:22`-`llm_poe.py:23`), both initially `None`. -/
structure CacheState where
  modelCache : Option (List CatalogEntry)
  cacheTimestamp : Option Int
deriving DecidableEq, Repr

/-- `_cache_duration = 3600` (`llm_poe.py:24`), in seconds. -/
def cacheDuration : Int := 3600

/-- The cache-validity test of `llm_poe.py:49`-`llm_poe.py:51`: both globals
set and the entry younger than `_cache_duration`. -/
def cacheIsFresh (st : CacheState) (now : Int) : Bool :=
  match st.modelCache, st.cacheTimestamp with
  | some _, some ts => decide (now - ts < cacheDuration)
  | _, _ => false

/-- Python truthiness test `if not api_key:` on the result of
`get_api_key_optional()` (`llm_poe.py:56`): missing key or empty string. -/
def keyMissing : Option String → Bool
  | none => true
  | some k => k == ""

/-- `fetch_available_models` (`llm_poe.py:43`-`llm_poe.py:87`): returns the
model list together with the cache state after the call. The cache is
consulted first; then the credential; then the network oracle, whose failure
is caught and mapped to the fallback list without touching the cache. -/
def fetchAvailableModels (st : CacheState) (now : Int) (apiKey : Option String)
    (net : Except Unit (List CatalogEntry)) : List CatalogEntry × CacheState :=
  if cacheIsFresh st now then
    (st.modelCache.getD [], st)
  else if keyMissing apiKey then
    (FALLBACK_MODELS, st)
  else
    match net with
    | .error _ => (FALLBACK_MODELS, st)
    | .ok models => (models, ⟨some models, some now⟩)

/- ### Model id sanitization and registration (`llm_poe.py:481`-`llm_poe.py:519`) -/

/-- One character of the sanitization at `llm_poe.py:490`:
`.replace('-', '_').replace('.', '_').replace(' ', '_')` on single-character
patterns is a character map. -/
def sanitizeChar (c : Char) : Char :=
  if c = '-' ∨ c = '.' ∨ c = ' ' then '_' else c

/-- The model id built on the fetched-catalog registration path
(`llm_poe.py:490`): provider prefixed, lowercased, with `-`, `.`, ` ` each
replaced by `_`. -/
def sanitizeId (name : String) : String :=
  "poe/" ++ pyMapChars sanitizeChar (pyLower name)

/-- The model id built on the fallback registration path (`llm_poe.py:507`):
provider prefixed, lowercased, with only `-` replaced by `_`. -/
def fallbackId (name : String) : String :=
  "poe/" ++ pyMapChars (fun c => if c = '-' then '_' else c) (pyLower name)

/-- One call of the `register` hook: the model instance's `model_id` and
`model_name` as passed to the `PoeModel` family constructors. -/
structure Registered where
  modelId : String
  modelName : String
deriving DecidableEq, Repr

/-- The fetched-catalog loop of `register_models` (`llm_poe.py:485`-`llm_poe.py:502`):
one `register` call per entry whose `id` is a non-empty string
(`model_name = model_data.get("id", ""); if model_name:`), in order. -/
def registerFromCatalog : List CatalogEntry → List Registered
  | [] => []
  | e :: rest =>
    let name := e.id.getD ""
    if name = "" then registerFromCatalog rest
    else ⟨sanitizeId name, name⟩ :: registerFromCatalog rest

/-- The fallback loop of `register_models` (`llm_poe.py:504`-`llm_poe.py:519`):
registers each of the five `FALLBACK_MODELS` with the `-`-only sanitization. -/
def registerFallback : List Registered :=
  (FALLBACK_MODELS.map fun e => e.id.getD "").map fun name => ⟨fallbackId name, name⟩

/- ### Conversation messages (`llm_poe.py:225`-`llm_poe.py:231` and the
identical blocks in the image/video/audio variants) -/

/-- One element of the `messages` array: `{"role": ..., "content": ...}`. -/
structure Message where
  role : String
  content : String
deriving DecidableEq, Repr

/-- One prior exchange of a conversation: `prev_response.prompt.prompt` and
`prev_response.text()`. -/
structure Exchange where
  promptText : String
  responseText : String
deriving DecidableEq, Repr

/-- The `messages` list built by every `execute` variant
(`llm_poe.py:225`-`llm_poe.py:231`): a `user`/`assistant` pair per prior
exchange in order, then a final `user` turn with the current prompt. A `None`
conversation behaves as the empty history (`if conversation:` skips the loop
either way). -/
def buildMessages : List Exchange → String → List Message
  | [], promptText => [⟨"user", promptText⟩]
  | e :: rest, promptText =>
    ⟨"user", e.promptText⟩ :: ⟨"assistant", e.responseText⟩ :: buildMessages rest promptText

/- ### Options and payloads -/

/-- `PoeOptions` (`llm_poe.py:174`-`llm_poe.py:185`): `some` is a set value,
`none` is Python `None`. Temperatures and speeds are rationals standing for
the Python floats, which the code never computes with. -/
structure PoeOptions where
  temperature : Option ℚ
  max_tokens : Option Int
deriving DecidableEq, Repr

/-- `PoeImageOptions` (`llm_poe.py:188`-`llm_poe.py:191`). -/
structure PoeImageOptions extends PoeOptions where
  size : Option String
  quality : Option String
deriving DecidableEq, Repr

/-- `PoeVideoOptions` (`llm_poe.py:193`-`llm_poe.py:195`). -/
structure PoeVideoOptions extends PoeOptions where
  duration : Option Int
  aspect_ratio : Option String
deriving DecidableEq, Repr

/-- `PoeAudioOptions` (`llm_poe.py:198`-`llm_poe.py:200`). -/
structure PoeAudioOptions extends PoeOptions where
  voice : Option String
  speed : Option ℚ
deriving DecidableEq, Repr

/-- Python truthiness gate `if opts.field:` on an optional value whose type
has a single falsy inhabitant (`""` for strings, `0`/`0.0` for numbers):
`None` and the falsy value drop the key, anything else keeps it. -/
def dropFalsy {α : Type} [DecidableEq α] (falsy : α) : Option α → Option α
  | some a => if a = falsy then none else some a
  | none => none

/-- Truthiness gate for optional strings: `None` and `""` are falsy. -/
def truthyStr : Option String → Option String := dropFalsy ""

/-- Truthiness gate for optional floats: `None` and `0.0` are falsy. -/
def truthyRat : Option ℚ → Option ℚ := dropFalsy 0

/-- Truthiness gate for optional ints: `None` and `0` are falsy. -/
def truthyInt : Option Int → Option Int := dropFalsy 0

/-- The outbound `/chat/completions` request body built by the `execute`
variants. An `Option` field is `some` exactly when the Python dict carries the
key; `model`, `messages` and `stream` are always present. -/
structure Payload where
  model : String
  messages : List Message
  stream : Bool
  temperature : Option ℚ := none
  max_tokens : Option Int := none
  size : Option String := none
  quality : Option String := none
  duration : Option Int := none
  aspect_ratio : Option String := none
  voice : Option String := none
  speed : Option ℚ := none
deriving DecidableEq, Repr

/-- Payload of `PoeModel.execute` (`llm_poe.py:233`-`llm_poe.py:242`): the
caller's stream flag, and `temperature`/`max_tokens` under `is not None`
checks. -/
def buildTextPayload (modelName : String) (messages : List Message) (stream : Bool)
    (opts : PoeOptions) : Payload :=
  { model := modelName, messages := messages, stream := stream,
    temperature := opts.temperature, max_tokens := opts.max_tokens }

/-- Payload of `PoeImageModel.execute` (`llm_poe.py:309`-`llm_poe.py:326`):
`stream` forced to `False`; `size`/`quality` under truthiness checks
(`if prompt.options.size:`), `temperature`/`max_tokens` under `is not None`.
The `hasattr` guards are always true on `PoeImageOptions`. -/
def buildImagePayload (modelName : String) (messages : List Message) (stream : Bool)
    (opts : PoeImageOptions) : Payload :=
  { model := modelName, messages := messages, stream := false,
    size := truthyStr opts.size, quality := truthyStr opts.quality,
    temperature := opts.temperature, max_tokens := opts.max_tokens }

/-- Payload of `PoeVideoModel.execute` (`llm_poe.py:367`-`llm_poe.py:383`):
`stream` forced to `False`; `duration`/`aspect_ratio` under truthiness checks,
`temperature`/`max_tokens` under `is not None`. -/
def buildVideoPayload (modelName : String) (messages : List Message) (stream : Bool)
    (opts : PoeVideoOptions) : Payload :=
  { model := modelName, messages := messages, stream := false,
    duration := truthyInt opts.duration, aspect_ratio := truthyStr opts.aspect_ratio,
    temperature := opts.temperature, max_tokens := opts.max_tokens }

/-- Payload of `PoeAudioModel.execute` (`llm_poe.py:424`-`llm_poe.py:440`):
the caller's stream flag; `voice`/`speed` under truthiness checks,
`temperature`/`max_tokens` under `is not None`. -/
def buildAudioPayload (modelName : String) (messages : List Message) (stream : Bool)
    (opts : PoeAudioOptions) : Payload :=
  { model := modelName, messages := messages, stream := stream,
    voice := truthyStr opts.voice, speed := truthyRat opts.speed,
    temperature := opts.temperature, max_tokens := opts.max_tokens }

/- ### HTTP dispatch (`llm_poe.py:244`, `llm_poe.py:328`, `llm_poe.py:385`,
`llm_poe.py:442`) -/

/-- `POE_API_BASE` (`llm_poe.py:10`). -/
def POE_API_BASE : String := "https://api.poe.com/v1"

/-- The outbound HTTP POST each `execute` variant issues: target URL, body,
the `timeout=` argument in whole seconds (all timeouts in the source are whole
floats), and whether the streaming transport (`client.stream`) or a plain
`client.post` is used. -/
structure OutRequest where
  url : String
  payload : Payload
  timeoutSecs : Nat
  usesStreamTransport : Bool
deriving DecidableEq, Repr

/-- Request of `PoeModel.execute` (`llm_poe.py:244`-`llm_poe.py:273`): both
the streaming branch and the plain POST use `timeout=30.0`. -/
def textRequest (modelName : String) (hist : List Exchange) (promptText : String)
    (stream : Bool) (opts : PoeOptions) : OutRequest :=
  { url := POE_API_BASE ++ "/chat/completions",
    payload := buildTextPayload modelName (buildMessages hist promptText) stream opts,
    timeoutSecs := 30, usesStreamTransport := stream }

/-- Request of `PoeImageModel.execute` (`llm_poe.py:328`-`llm_poe.py:334`):
always a plain POST with `timeout=60.0`. -/
def imageRequest (modelName : String) (hist : List Exchange) (promptText : String)
    (stream : Bool) (opts : PoeImageOptions) : OutRequest :=
  { url := POE_API_BASE ++ "/chat/completions",
    payload := buildImagePayload modelName (buildMessages hist promptText) stream opts,
    timeoutSecs := 60, usesStreamTransport := false }

/-- Request of `PoeVideoModel.execute` (`llm_poe.py:385`-`llm_poe.py:391`):
always a plain POST with `timeout=120.0`. -/
def videoRequest (modelName : String) (hist : List Exchange) (promptText : String)
    (stream : Bool) (opts : PoeVideoOptions) : OutRequest :=
  { url := POE_API_BASE ++ "/chat/completions",
    payload := buildVideoPayload modelName (buildMessages hist promptText) stream opts,
    timeoutSecs := 120, usesStreamTransport := false }

/-- Request of `PoeAudioModel.execute` (`llm_poe.py:442`-`llm_poe.py:471`):
both the streaming branch and the plain POST use `timeout=60.0`. -/
def audioRequest (modelName : String) (hist : List Exchange) (promptText : String)
    (stream : Bool) (opts : PoeAudioOptions) : OutRequest :=
  { url := POE_API_BASE ++ "/chat/completions",
    payload := buildAudioPayload modelName (buildMessages hist promptText) stream opts,
    timeoutSecs := 60, usesStreamTransport := stream }

/- ### Streaming decode (`llm_poe.py:254`-`llm_poe.py:266`, duplicated at
`llm_poe.py:452`-`llm_poe.py:464`) -/

/-- Fragments yielded for one successfully parsed streaming event
(`llm_poe.py:261`-`llm_poe.py:264`): one fragment exactly when `choices` is a
non-empty array and `choices[0].get("delta", {})` has a `content` key. -/
def eventFragments (chunk : Json) : List Json :=
  match chunk.getField "choices" with
  | some (Json.arr (c0 :: _)) =>
    match (c0.getField "delta").getD (Json.obj []) |>.getField "content" with
    | some c => [c]
    | none => []
  | _ => []

/-- The streaming decode loop (`llm_poe.py:254`-`llm_poe.py:266`) over the
response body's lines. `json.loads` is the external oracle `parse`; `none`
models a `json.JSONDecodeError`, which the loop swallows with `continue`.
A line not starting with `"data: "` is skipped; a remainder equal to
`"[DONE]"` breaks out of the loop. -/
def decodeStream (parse : String → Option Json) : List String → List Json
  | [] => []
  | line :: rest =>
    if pyStarts line "data: " then
      if pyDropChars 6 line = "[DONE]" then []
      else
        match parse (pyDropChars 6 line) with
        | some chunk => eventFragments chunk ++ decodeStream parse rest
        | none => decodeStream parse rest
    else decodeStream parse rest

/-- Spec-side restatement of the streaming decode, following the words of the
specification: the fragments are the per-line fragments of the lines before
the first terminator line, concatenated in wire order; a non-data line and an
unparseable data line contribute nothing. Compared against `decodeStream` in
the claim C1 theorem. -/
def isTerminatorLine (line : String) : Bool :=
  pyStarts line "data: " && pyDropChars 6 line == "[DONE]"

/-- Fragments contributed by a single line on the spec side. -/
def lineFragments (parse : String → Option Json) (line : String) : List Json :=
  if pyStarts line "data: " then
    match parse (pyDropChars 6 line) with
    | some chunk => eventFragments chunk
    | none => []
  else []

/-- Spec-side streaming decode: map `lineFragments` over the prefix of lines
strictly before the first terminator and concatenate. -/
def decodeStreamSpec (parse : String → Option Json) (lines : List String) : List Json :=
  ((lines.takeWhile fun l => !(isTerminatorLine l)).map (lineFragments parse)).flatten

/- ### Non-streaming decode (`llm_poe.py:275`-`llm_poe.py:281`, duplicated in
the image/video/audio variants) -/

/-- The non-streaming decode (`llm_poe.py:275`-`llm_poe.py:281`): on a parsed
body, yield `choices[0]["message"]["content"]` iff `choices` is a non-empty
array, then store the whole body into `response.response_json`. Returns the
yielded fragments and the stored body; `.error` models the uncaught Python
`KeyError`/`TypeError` when `choices` is non-empty but
`choices[0]["message"]["content"]` is not reachable. A `choices` value that is
not an array is outside the wire format (`{choices:[{message:{content}}]}`)
and is modelled like the falsy case. -/
def decodeNonStreaming (data : Json) : Except Unit (List Json × Json) :=
  match data.getField "choices" with
  | some (Json.arr (c0 :: _)) =>
    match c0.getField "message" with
    | some msg =>
      match msg.getField "content" with
      | some content => .ok ([content], data)
      | none => .error ()
    | none => .error ()
  | _ => .ok ([], data)

/- ### Helper lemmas -/

/-- Lists registered from a catalog are exactly a `filterMap` of the entries. -/
theorem registerFromCatalog_eq_filterMap (entries : List CatalogEntry) :
    registerFromCatalog entries = entries.filterMap fun e =>
      match e.id with
      | some s => if s = "" then none else some (⟨sanitizeId s, s⟩ : Registered)
      | none => none := by
  induction entries with
  | nil => rfl
  | cons e rest ih =>
    cases h : e.id with
    | none => simp [registerFromCatalog, List.filterMap_cons, h, ih]
    | some s =>
      by_cases hs : s = "" <;>
        simp [registerFromCatalog, List.filterMap_cons, h, hs, ih]

/-- Every registration produced from the catalog path carries the fully
sanitized id of its display name. -/
theorem registerFromCatalog_sanitized (entries : List CatalogEntry) :
    ∀ r ∈ registerFromCatalog entries, r.modelId = sanitizeId r.modelName := by
  induction entries with
  | nil => intro r hr; simp [registerFromCatalog] at hr
  | cons e rest ih =>
    intro r hr
    by_cases h : e.id.getD "" = ""
    · have hr2 : r ∈ registerFromCatalog rest := by
        simpa [registerFromCatalog, h] using hr
      exact ih r hr2
    · have hr2 : r = (⟨sanitizeId (e.id.getD ""), e.id.getD ""⟩ : Registered) ∨
          r ∈ registerFromCatalog rest := by
        simpa [registerFromCatalog, h] using hr
      rcases hr2 with rfl | hr2
      · rfl
      · exact ih r hr2

/-- The truthiness gate keeps exactly the present, non-falsy values. -/
theorem dropFalsy_eq_some {α : Type} [DecidableEq α] (falsy : α) (o : Option α) (v : α) :
    dropFalsy falsy o = some v ↔ o = some v ∧ v ≠ falsy := by
  cases o with
  | none => simp [dropFalsy]
  | some a =>
    by_cases h : a = falsy
    · rw [dropFalsy, if_pos h]
      constructor
      · intro hc; cases hc
      · rintro ⟨h1, h2⟩
        have h1a : a = v := Option.some_inj.mp h1
        exact ((h2 (h1a.symm.trans h))).elim
    · rw [dropFalsy, if_neg h]
      constructor
      · intro h1
        have h1a : a = v := Option.some_inj.mp h1
        exact ⟨h1, h1a ▸ h⟩
      · rintro ⟨h1, _⟩; exact h1

/-- Length of the built message list: two turns per exchange plus the final
user turn. -/
theorem buildMessages_length (hist : List Exchange) (p : String) :
    (buildMessages hist p).length = 2 * hist.length + 1 := by
  induction hist with
  | nil => rfl
  | cons e rest ih =>
    simp only [buildMessages, List.length_cons, ih]
    omega

/-- The pair of turns built for the i-th prior exchange sits at positions 2i
and 2i+1, as user then assistant. -/
theorem buildMessages_pair (hist : List Exchange) (p : String) :
    ∀ i e, hist[i]? = some e →
      (buildMessages hist p)[2 * i]? = some ⟨"user", e.promptText⟩ ∧
      (buildMessages hist p)[2 * i + 1]? = some ⟨"assistant", e.responseText⟩ := by
  induction hist with
  | nil => intro i e h; simp at h
  | cons x rest ih =>
    intro i e h
    cases i with
    | zero =>
      have hx : x = e := by simpa using h
      subst hx
      constructor
      · simp [buildMessages]
      · simp [buildMessages]
    | succ j =>
      have h2 : rest[j]? = some e := by simpa using h
      obtain ⟨hu, ha⟩ := ih j e h2
      have e1 : 2 * (j + 1) = 2 * j + 1 + 1 := by ring
      have e2 : 2 * (j + 1) + 1 = 2 * j + 1 + 1 + 1 := by ring
      refine ⟨?_, ?_⟩
      · rw [e1]
        simpa [buildMessages] using hu
      · rw [e2]
        simpa [buildMessages] using ha

/-- The final element of the built message list, at position 2n, is the
current user turn. -/
theorem buildMessages_last (hist : List Exchange) (p : String) :
    (buildMessages hist p)[2 * hist.length]? = some ⟨"user", p⟩ := by
  induction hist with
  | nil => rfl
  | cons x rest ih =>
    have e1 : 2 * (x :: rest).length = 2 * rest.length + 1 + 1 := by
      simp [List.length_cons]; omega
    rw [e1]
    simpa [buildMessages] using ih

/-- Every built message is a user or assistant turn. -/
theorem buildMessages_roles (hist : List Exchange) (p : String) :
    ∀ m ∈ buildMessages hist p, m.role = "user" ∨ m.role = "assistant" := by
  induction hist with
  | nil =>
    intro m hm
    have hm2 : m = (⟨"user", p⟩ : Message) := by simpa [buildMessages] using hm
    subst hm2; left; rfl
  | cons x rest ih =>
    intro m hm
    have hm2 : m = (⟨"user", x.promptText⟩ : Message) ∨
        m = (⟨"assistant", x.responseText⟩ : Message) ∨ m ∈ buildMessages rest p := by
      simpa [buildMessages] using hm
    rcases hm2 with rfl | rfl | hm2
    · left; rfl
    · right; rfl
    · exact ih m hm2

/- ### Claim theorems -/

/-- C3: whenever a real catalog fetch is attempted (cache not fresh,
credential present) and the fetch fails for any reason covered by the
`except` clause — transport error, non-2xx status, malformed body — the call
returns the static fallback list and leaves the cache (model list and
timestamp) unchanged; the embedding is total, so no exception escapes. -/
theorem C3_fetch_failure (st : CacheState) (now : Int) (key : Option String)
    (hfresh : cacheIsFresh st now = false) (hkey : keyMissing key = false) :
    fetchAvailableModels st now key (.error ()) = (FALLBACK_MODELS, st) := by
  simp [fetchAvailableModels, hfresh, hkey]

/-- Witness for C3: an empty cache with a present key and a failing fetch. -/
theorem C3_fetch_failure_witness :
    fetchAvailableModels ⟨none, none⟩ 0 (some "k") (.error ()) =
      (FALLBACK_MODELS, ⟨none, none⟩) :=
  C3_fetch_failure ⟨none, none⟩ 0 (some "k") (by decide) (by decide)

/-- C4 as stated is false: the cache freshness check precedes the credential
check, so with a fresh cache and an absent credential the cached list — here
the empty list, distinct from the 5-entry fallback list — is returned. -/
theorem C4_counterexample :
    (fetchAvailableModels ⟨some [], some 0⟩ 0 none (.ok [])).1 ≠ FALLBACK_MODELS := by
  decide

/-- C4 amended: when the credential is absent, GetModels returns the static
fallback list without mutating the cache and independently of the network
state, provided the cache is not fresh; when the cache is fresh, the cached
list is returned unchanged and the credential is never consulted. -/
theorem C4_missing_key (st : CacheState) (now : Int)
    (net : Except Unit (List CatalogEntry)) (key : Option String) :
    (cacheIsFresh st now = false →
      fetchAvailableModels st now none net = (FALLBACK_MODELS, st)) ∧
    (cacheIsFresh st now = true →
      fetchAvailableModels st now key net = (st.modelCache.getD [], st)) := by
  constructor
  · intro h; simp [fetchAvailableModels, h, keyMissing]
  · intro h; simp [fetchAvailableModels, h]

/-- Witness for C4 amended: an expired cache entry with no credential yields
the fallback list and the (stale) cache is untouched. -/
theorem C4_missing_key_witness :
    fetchAvailableModels ⟨some [], some 0⟩ 5000 none (.ok [⟨some "X"⟩]) =
      (FALLBACK_MODELS, ⟨some [], some 0⟩) :=
  (C4_missing_key ⟨some [], some 0⟩ 5000 (.ok [⟨some "X"⟩]) none).1 (by decide)

/-- C6: the image and video payloads always carry `stream = false` whatever
streaming flag the caller requested, while the text and audio payloads carry
exactly the caller's flag. -/
theorem C6_stream_flag (modelName : String) (hist : List Exchange)
    (promptText : String) (stream : Bool) (topts : PoeOptions)
    (iopts : PoeImageOptions) (vopts : PoeVideoOptions) (aopts : PoeAudioOptions) :
    (imageRequest modelName hist promptText stream iopts).payload.stream = false ∧
    (videoRequest modelName hist promptText stream vopts).payload.stream = false ∧
    (textRequest modelName hist promptText stream topts).payload.stream = stream ∧
    (audioRequest modelName hist promptText stream aopts).payload.stream = stream :=
  ⟨rfl, rfl, rfl, rfl⟩

/-- C8 as stated is false: it asserts that a plain (non-streaming) audio
completion call uses the 30-second timeout, but `PoeAudioModel.execute` passes
`timeout=60.0` on its non-streaming branch (`llm_poe.py:470`). -/
theorem C8_counterexample :
    (audioRequest "m" [] "p" false ⟨⟨none, none⟩, none, none⟩).timeoutSecs = 60 ∧
    (60 : Nat) ≠ 30 := by
  decide

/-- C8 amended: the timeout is determined by modality alone — Text uses 30s,
Audio uses 60s (on both its streaming and non-streaming branches), Image uses
60s and Video uses 120s. -/
theorem C8_timeouts (modelName : String) (hist : List Exchange)
    (promptText : String) (stream : Bool) (topts : PoeOptions)
    (iopts : PoeImageOptions) (vopts : PoeVideoOptions) (aopts : PoeAudioOptions) :
    (textRequest modelName hist promptText stream topts).timeoutSecs = 30 ∧
    (audioRequest modelName hist promptText stream aopts).timeoutSecs = 60 ∧
    (imageRequest modelName hist promptText stream iopts).timeoutSecs = 60 ∧
    (videoRequest modelName hist promptText stream vopts).timeoutSecs = 120 :=
  ⟨rfl, rfl, rfl, rfl⟩

/-- C9 as stated is false: on the fallback registration path only `-` is
replaced (`llm_poe.py:507`), so the fallback model `Gemini-2.5-Pro` is
registered with id `poe/gemini_2.5_pro`, which still contains a dot and
differs from the fully sanitized id. -/
theorem C9_counterexample :
    registerFallback[2]? = some ⟨"poe/gemini_2.5_pro", "Gemini-2.5-Pro"⟩ ∧
    "poe/gemini_2.5_pro" ≠ sanitizeId "Gemini-2.5-Pro" := by
  decide

/-- C9 amended: on the fetched-catalog path every registration carries the id
`poe/` + lowercase name with `-`, `.`, ` ` each replaced by `_` (so
`Flux.Pro 1.1-Ultra` yields id suffix `flux_pro_1_1_ultra`) and the original
display name; on the fallback path only `-` is replaced, so dots and spaces
survive into the id, the display name again being the original. -/
theorem C9_sanitized_ids (entries : List CatalogEntry) :
    (∀ r ∈ registerFromCatalog entries, r.modelId = sanitizeId r.modelName) ∧
    registerFallback =
      [⟨"poe/gpt_4o", "GPT-4o"⟩, ⟨"poe/claude_sonnet_4", "Claude-Sonnet-4"⟩,
       ⟨"poe/gemini_2.5_pro", "Gemini-2.5-Pro"⟩, ⟨"poe/llama_3.1_405b", "Llama-3.1-405B"⟩,
       ⟨"poe/grok_4", "Grok-4"⟩] ∧
    sanitizeId "Flux.Pro 1.1-Ultra" = "poe/flux_pro_1_1_ultra" :=
  ⟨registerFromCatalog_sanitized entries, by decide, by decide⟩

/-- Witness for C9 amended: a one-entry catalog registers the sanitized id. -/
theorem C9_sanitized_ids_witness :
    (⟨"poe/flux_pro_1_1_ultra", "Flux.Pro 1.1-Ultra"⟩ : Registered).modelId =
      sanitizeId "Flux.Pro 1.1-Ultra" :=
  (C9_sanitized_ids [⟨some "Flux.Pro 1.1-Ultra"⟩]).1
    ⟨"poe/flux_pro_1_1_ultra", "Flux.Pro 1.1-Ultra"⟩ (by decide)

/-- C10: the catalog registration loop makes exactly one `register` call per
entry whose `id` field is a present, non-empty string — with the sanitized id
and original name, in catalog order — and silently skips entries whose `id` is
absent or empty; the number of calls is the number of non-skipped entries. -/
theorem C10_registration_per_entry (entries : List CatalogEntry) :
    registerFromCatalog entries =
      (entries.filterMap fun e =>
        match e.id with
        | some s => if s = "" then none else some (⟨sanitizeId s, s⟩ : Registered)
        | none => none) ∧
    (registerFromCatalog entries).length =
      (entries.filter fun e => !(e.id.getD "" == "")).length := by
  refine ⟨registerFromCatalog_eq_filterMap entries, ?_⟩
  induction entries with
  | nil => rfl
  | cons e rest ih =>
    by_cases h : e.id.getD "" = "" <;>
      simp [registerFromCatalog, List.filter_cons, h, ih]

/-- C2: for prior exchanges `[(Q1,A1),...,(Qn,An)]` and prompt `P`, the built
message sequence has length 2n+1; the i-th exchange contributes `user Qi` at
position 2i and `assistant Ai` at position 2i+1; position 2n is `user P`;
every turn is a user or assistant turn (no system turn); and for n = 2 the
sequence is exactly the expected 5-element list. -/
theorem C2_messages (hist : List Exchange) (promptText : String) :
    (buildMessages hist promptText).length = 2 * hist.length + 1 ∧
    (∀ i e, hist[i]? = some e →
      (buildMessages hist promptText)[2 * i]? = some ⟨"user", e.promptText⟩ ∧
      (buildMessages hist promptText)[2 * i + 1]? = some ⟨"assistant", e.responseText⟩) ∧
    (buildMessages hist promptText)[2 * hist.length]? = some ⟨"user", promptText⟩ ∧
    (∀ m ∈ buildMessages hist promptText, m.role = "user" ∨ m.role = "assistant") ∧
    buildMessages [⟨"Q1", "A1"⟩, ⟨"Q2", "A2"⟩] "P" =
      [⟨"user", "Q1"⟩, ⟨"assistant", "A1"⟩, ⟨"user", "Q2"⟩, ⟨"assistant", "A2"⟩,
       ⟨"user", "P"⟩] :=
  ⟨buildMessages_length hist promptText, buildMessages_pair hist promptText,
   buildMessages_last hist promptText, buildMessages_roles hist promptText, rfl⟩

/-- Witness for C2: the second exchange of a two-exchange history lands at
positions 2 and 3, and the first built turn is a user or assistant turn. -/
theorem C2_messages_witness :
    ((buildMessages [⟨"Q1", "A1"⟩, ⟨"Q2", "A2"⟩] "P")[2]? = some ⟨"user", "Q2"⟩ ∧
     (buildMessages [⟨"Q1", "A1"⟩, ⟨"Q2", "A2"⟩] "P")[3]? = some ⟨"assistant", "A2"⟩) ∧
    ((⟨"user", "Q1"⟩ : Message).role = "user" ∨
     (⟨"user", "Q1"⟩ : Message).role = "assistant") :=
  ⟨(C2_messages [⟨"Q1", "A1"⟩, ⟨"Q2", "A2"⟩] "P").2.1 1 ⟨"Q2", "A2"⟩ (by decide),
   (C2_messages [⟨"Q1", "A1"⟩, ⟨"Q2", "A2"⟩] "P").2.2.2.1 ⟨"user", "Q1"⟩ (by decide)⟩

/-- C5 as stated is false: the modality-specific fields sit behind Python
truthiness checks, so the non-null value `0.0` for `speed` (likewise `0` for
`duration` and `""` for the string options) is omitted from the payload. -/
theorem C5_counterexample :
    (buildAudioPayload "m" [] false ⟨⟨none, none⟩, none, some 0⟩).speed = none ∧
    (⟨⟨none, none⟩, none, some 0⟩ : PoeAudioOptions).speed ≠ none := by
  constructor
  · rfl
  · decide

/-- C5 amended: `temperature` and `max_tokens` appear in every payload exactly
when non-null (0 and 0.0 included), while the modality-specific fields
(`size`, `quality`, `duration`, `aspect_ratio`, `voice`, `speed`) appear
exactly when non-null and truthy — a present `""`, `0` or `0.0` is omitted
like a null. -/
theorem C5_option_presence (m : String) (msgs : List Message) (s : Bool)
    (topts : PoeOptions) (iopts : PoeImageOptions) (vopts : PoeVideoOptions)
    (aopts : PoeAudioOptions) :
    (buildTextPayload m msgs s topts).temperature = topts.temperature ∧
    (buildTextPayload m msgs s topts).max_tokens = topts.max_tokens ∧
    (buildImagePayload m msgs s iopts).temperature = iopts.temperature ∧
    (buildImagePayload m msgs s iopts).max_tokens = iopts.max_tokens ∧
    (buildVideoPayload m msgs s vopts).temperature = vopts.temperature ∧
    (buildVideoPayload m msgs s vopts).max_tokens = vopts.max_tokens ∧
    (buildAudioPayload m msgs s aopts).temperature = aopts.temperature ∧
    (buildAudioPayload m msgs s aopts).max_tokens = aopts.max_tokens ∧
    (∀ v, (buildImagePayload m msgs s iopts).size = some v ↔
      iopts.size = some v ∧ v ≠ "") ∧
    (∀ v, (buildImagePayload m msgs s iopts).quality = some v ↔
      iopts.quality = some v ∧ v ≠ "") ∧
    (∀ v, (buildVideoPayload m msgs s vopts).duration = some v ↔
      vopts.duration = some v ∧ v ≠ 0) ∧
    (∀ v, (buildVideoPayload m msgs s vopts).aspect_ratio = some v ↔
      vopts.aspect_ratio = some v ∧ v ≠ "") ∧
    (∀ v, (buildAudioPayload m msgs s aopts).voice = some v ↔
      aopts.voice = some v ∧ v ≠ "") ∧
    (∀ v, (buildAudioPayload m msgs s aopts).speed = some v ↔
      aopts.speed = some v ∧ v ≠ 0) :=
  ⟨rfl, rfl, rfl, rfl, rfl, rfl, rfl, rfl,
   fun v => dropFalsy_eq_some "" iopts.size v,
   fun v => dropFalsy_eq_some "" iopts.quality v,
   fun v => dropFalsy_eq_some 0 vopts.duration v,
   fun v => dropFalsy_eq_some "" vopts.aspect_ratio v,
   fun v => dropFalsy_eq_some "" aopts.voice v,
   fun v => dropFalsy_eq_some 0 aopts.speed v⟩

/-- Witness for C5 amended: a set, truthy voice is included, applying the
amended theorem at concrete options. -/
theorem C5_option_presence_witness :
    (buildAudioPayload "m" [] false ⟨⟨none, none⟩, some "alloy", none⟩).voice =
      some "alloy" :=
  ((C5_option_presence "m" [] false ⟨none, none⟩ ⟨⟨none, none⟩, none, none⟩
      ⟨⟨none, none⟩, none, none⟩
      ⟨⟨none, none⟩, some "alloy", none⟩).2.2.2.2.2.2.2.2.2.2.2.2.1 "alloy").mpr
    ⟨rfl, by decide⟩

/-- C7: on a parsed non-streaming body, absent or empty `choices` yields zero
fragments without raising, and the body is still stored into the response
slot; a non-empty `choices` whose head carries `message.content` yields
exactly that one fragment, again storing the body; whatever is stored is
always the full parsed body. -/
theorem C7_non_streaming (data : Json) :
    (data.getField "choices" = none → decodeNonStreaming data = .ok ([], data)) ∧
    (data.getField "choices" = some (Json.arr []) →
      decodeNonStreaming data = .ok ([], data)) ∧
    (∀ c0 cs msg content,
      data.getField "choices" = some (Json.arr (c0 :: cs)) →
      c0.getField "message" = some msg → msg.getField "content" = some content →
      decodeNonStreaming data = .ok ([content], data)) ∧
    (∀ frags stored, decodeNonStreaming data = .ok (frags, stored) → stored = data) := by
  refine ⟨?_, ?_, ?_, ?_⟩
  · intro h; simp [decodeNonStreaming, h]
  · intro h; simp [decodeNonStreaming, h]
  · intro c0 cs msg content h1 h2 h3
    simp [decodeNonStreaming, h1, h2, h3]
  · intro frags stored h
    unfold decodeNonStreaming at h
    split at h
    · split at h
      · split at h
        · cases h; rfl
        · cases h
      · cases h
    · cases h; rfl

/-- A well-formed non-streaming body with one choice, used as witness input. -/
def exampleBody : Json :=
  Json.obj [("choices",
    Json.arr [Json.obj [("message", Json.obj [("content", Json.str "hello")])]]),
    ("usage", Json.num 3)]

/-- A non-streaming body with an empty `choices` array, used as witness input. -/
def exampleBodyEmpty : Json := Json.obj [("choices", Json.arr [])]

/-- Witness for C7: the empty-choices body yields nothing and is stored; the
one-choice body yields its single content fragment and is stored. -/
theorem C7_non_streaming_witness :
    decodeNonStreaming exampleBodyEmpty = .ok ([], exampleBodyEmpty) ∧
    decodeNonStreaming exampleBody = .ok ([Json.str "hello"], exampleBody) :=
  ⟨(C7_non_streaming exampleBodyEmpty).2.1 rfl,
   (C7_non_streaming exampleBody).2.2.1
     (Json.obj [("message", Json.obj [("content", Json.str "hello")])]) []
     (Json.obj [("content", Json.str "hello")]) (Json.str "hello") rfl rfl rfl⟩

/-- Unfolding of the spec-side streaming decode over one line. -/
theorem decodeStreamSpec_cons (parse : String → Option Json) (line : String)
    (rest : List String) :
    decodeStreamSpec parse (line :: rest) =
      if isTerminatorLine line then []
      else lineFragments parse line ++ decodeStreamSpec parse rest := by
  by_cases h : isTerminatorLine line <;>
    simp [decodeStreamSpec, List.takeWhile_cons, h]

/-- The code's streaming decode loop agrees with the spec-side description on
every body and every parse oracle. -/
theorem decodeStream_eq_spec (parse : String → Option Json) (lines : List String) :
    decodeStream parse lines = decodeStreamSpec parse lines := by
  induction lines with
  | nil => rfl
  | cons line rest ih =>
    rw [decodeStreamSpec_cons]
    by_cases hs : pyStarts line "data: " = true
    · by_cases hd : pyDropChars 6 line = "[DONE]"
      · simp [decodeStream, isTerminatorLine, hs, hd]
      · cases hp : parse (pyDropChars 6 line) with
        | some chunk =>
          simp [decodeStream, isTerminatorLine, lineFragments, hs, hd, hp, ih]
        | none =>
          simp [decodeStream, isTerminatorLine, lineFragments, hs, hd, hp, ih]
    · have hs2 : pyStarts line "data: " = false := by
        cases hpb : pyStarts line "data: "
        · rfl
        · exact (hs hpb).elim
      simp [decodeStream, isTerminatorLine, lineFragments, hs2, ih]

/-- A parsed streaming event whose `choices[0].delta` carries `content` (the
shape `{choices:[{delta:{content: s}}]}`). -/
def chunkWithContent (s : String) : Json :=
  Json.obj [("choices",
    Json.arr [Json.obj [("delta", Json.obj [("content", Json.str s)])]])]

/-- A parsed streaming event whose delta is empty: `{choices:[{delta:{}}]}`. -/
def emptyDeltaChunk : Json :=
  Json.obj [("choices", Json.arr [Json.obj [("delta", Json.obj [])]])]

/-- A concrete stand-in for `json.loads` used on the example stream: `e1` and
`e3` parse to delta events carrying content, `e2` to an event with an empty
delta, everything else fails to parse. -/
def exampleParse : String → Option Json
  | "e1" => some (chunkWithContent "This")
  | "e2" => some emptyDeltaChunk
  | "e3" => some (chunkWithContent " is")
  | _ => none

/-- C1: the streaming decode agrees with the spec-side description (fragments
of the lines before the first terminator, in wire order); a non-`data: ` line
is ignored; a terminator line ends the sequence with no later line consumed;
an unparseable data line is skipped without ending the sequence; a parsed
event contributes one fragment exactly when `choices` is non-empty and its
head's `delta` has a `content` key; and the example stream
`delta:"This"`, `delta:{}`, `delta:" is"`, terminator decodes to exactly
`["This", " is"]` even with a further event after the terminator. -/
theorem C1_stream_decode (parse : String → Option Json) :
    (∀ lines, decodeStream parse lines = decodeStreamSpec parse lines) ∧
    (∀ line rest, pyStarts line "data: " = false →
      decodeStream parse (line :: rest) = decodeStream parse rest) ∧
    (∀ line rest, isTerminatorLine line = true →
      decodeStream parse (line :: rest) = []) ∧
    (∀ line rest, pyStarts line "data: " = true → pyDropChars 6 line ≠ "[DONE]" →
      parse (pyDropChars 6 line) = none →
      decodeStream parse (line :: rest) = decodeStream parse rest) ∧
    (∀ line rest chunk, pyStarts line "data: " = true →
      pyDropChars 6 line ≠ "[DONE]" → parse (pyDropChars 6 line) = some chunk →
      decodeStream parse (line :: rest) =
        eventFragments chunk ++ decodeStream parse rest) ∧
    (∀ chunk c0 cs content, chunk.getField "choices" = some (Json.arr (c0 :: cs)) →
      ((c0.getField "delta").getD (Json.obj [])).getField "content" = some content →
      eventFragments chunk = [content]) ∧
    (∀ chunk c0 cs, chunk.getField "choices" = some (Json.arr (c0 :: cs)) →
      ((c0.getField "delta").getD (Json.obj [])).getField "content" = none →
      eventFragments chunk = []) ∧
    (∀ chunk, chunk.getField "choices" = none → eventFragments chunk = []) ∧
    (∀ chunk, chunk.getField "choices" = some (Json.arr []) →
      eventFragments chunk = []) ∧
    decodeStream exampleParse
      ["data: e1", "data: e2", "data: e3", "data: [DONE]", "data: e3"] =
      [Json.str "This", Json.str " is"] := by
  refine ⟨decodeStream_eq_spec parse, ?_, ?_, ?_, ?_, ?_, ?_, ?_, ?_, ?_⟩
  · intro line rest h
    simp [decodeStream, h]
  · intro line rest h
    rw [isTerminatorLine, Bool.and_eq_true, beq_iff_eq] at h
    obtain ⟨hs, hd⟩ := h
    simp [decodeStream, hs, hd]
  · intro line rest h hd hp
    simp [decodeStream, h, hd, hp]
  · intro line rest chunk h hd hp
    simp [decodeStream, h, hd, hp]
  · intro chunk c0 cs content h1 h2
    simp [eventFragments, h1, h2]
  · intro chunk c0 cs h1 h2
    simp [eventFragments, h1, h2]
  · intro chunk h
    simp [eventFragments, h]
  · intro chunk h
    simp [eventFragments, h]
  · rfl

/-- Witness for C1: a non-data line is skipped, and a terminator line written
out concretely stops the decode. -/
theorem C1_stream_decode_witness :
    decodeStream exampleParse ("ping" :: ["data: e1"]) =
      decodeStream exampleParse ["data: e1"] ∧
    decodeStream exampleParse ("data: [DONE]" :: ["data: e1"]) = [] :=
  ⟨(C1_stream_decode exampleParse).2.1 "ping" ["data: e1"] (by decide),
   (C1_stream_decode exampleParse).2.2.1 "data: [DONE]" ["data: e1"] (by decide)⟩

end LlmPoe
